import Mathlib

/-!
Shallow embedding of the `next-16-prisma-better-auth` starter repository:
the route proxy, the `sendMessage` server action, and the session-gated
`/user` and `/admin` pages, together with theorems checking the
specification's claims about them.
-/

namespace NextAuthStarter

/-! ## Route proxy (middleware `proxy` function)

The proxy inspects `request.nextUrl.pathname` against a static list of
protected route prefixes, looks for the `better-auth.session_token` cookie,
and either redirects to `/signin` (carrying a `callbackUrl` query
parameter) or passes the request through (`NextResponse.next()`). -/

/-- A request cookie: a name/value pair, as exposed by `request.cookies`. -/
structure Cookie where
  name : String
  value : String
deriving DecidableEq, Repr

/-- The parts of a `NextRequest` the proxy reads: the pathname of
`request.nextUrl` and the cookie list; `url` is the full request URL used
as the base when building the redirect URL. -/
structure NextRequest where
  pathname : String
  cookies : List Cookie
  url : String
deriving DecidableEq, Repr

/-- JavaScript's `s.startsWith(p)`, computed on the underlying characters. -/
def strStartsWith (s p : String) : Bool :=
  p.data.isPrefixOf s.data

/-- `request.cookies.get(name)`: the first cookie with the given name, if any. -/
def cookiesGet (cookies : List Cookie) (name : String) : Option Cookie :=
  cookies.find? (fun c => c.name == name)

/-- The redirect target built by `new URL('/signin', request.url)` followed
by `searchParams.set(...)`: the base URL the path is resolved against, the
path, and the query parameters. -/
structure RedirectLocation where
  base : String
  path : String
  query : List (String × String)
deriving DecidableEq, Repr

/-- The proxy's response: either a redirect (`NextResponse.redirect`) or a
pass-through (`NextResponse.next()`), which leaves the request unmodified. -/
inductive ProxyResponse where
  | redirect (location : RedirectLocation)
  | next
deriving DecidableEq, Repr

/-- `const protectedRoutes = ['/messages', '/user']` -/
def protectedRoutes : List String := ["/messages", "/user"]

/-- `protectedRoutes.some((route) => pathname === route || pathname.startsWith(route + '/'))` -/
def isProtectedRoute (pathname : String) : Bool :=
  protectedRoutes.any (fun route => pathname == route || strStartsWith pathname (route ++ "/"))

/-- The `proxy` function of the middleware file. -/
def proxy (request : NextRequest) : ProxyResponse :=
  let pathname := request.pathname
  if isProtectedRoute pathname then
    match cookiesGet request.cookies "better-auth.session_token" with
    | none => ProxyResponse.redirect ⟨request.url, "/signin", [("callbackUrl", pathname)]⟩
    | some _ => ProxyResponse.next
  else
    ProxyResponse.next

/-! ## `sendMessage` server action (`src/app/messages/actions.ts`)

The action validates the input against a zod schema
(`name: z.string().min(1, "Name is required")`,
`email: z.string().email("Invalid email")`,
`message: z.string().min(1, "Message is required")`), then sends an email
via the Resend API, then creates a database record, returning
`{ success: true }` or `{ success: false, error }`.  Any thrown error is
logged with `console.error` and turned into an error result. -/

/-- A character of the zod email regex's local-part class `[A-Za-z0-9_'+\-.]`. -/
def isLocalChar (c : Char) : Bool :=
  c.isAlpha || c.isDigit || c == '_' || c == Char.ofNat 39 || c == '+' || c == '-' || c == '.'

/-- A character of the class `[A-Za-z0-9_+-]` the local part must end with. -/
def isLocalEndChar (c : Char) : Bool :=
  c.isAlpha || c.isDigit || c == '_' || c == '+' || c == '-'

/-- Local part of the email: `([A-Za-z0-9_'+\-.]*)[A-Za-z0-9_+-]` — nonempty,
all characters in the local class, ending in the end class. -/
def localPartOk (l : String) : Bool :=
  !l.isEmpty && l.data.all isLocalChar && isLocalEndChar (l.data.getLastD ' ')

/-- A domain label `[A-Za-z0-9][A-Za-z0-9-]*`: nonempty, starting
alphanumeric, continuing with alphanumerics or hyphens. -/
def labelOk (l : String) : Bool :=
  match l.data with
  | [] => false
  | c :: rest => c.isAlphanum && rest.all (fun d => d.isAlphanum || d == '-')

/-- The final domain component `[A-Za-z]{2,}`: at least two letters. -/
def tldOk (t : String) : Bool :=
  t.length ≥ 2 && t.data.all Char.isAlpha

/-- Splitting a character list on a separator character, the
single-character-separator case of `String.splitOn` (always nonempty). -/
def splitOnChar (sep : Char) : List Char → List (List Char)
  | [] => [[]]
  | c :: rest =>
    match splitOnChar sep rest with
    | [] => [[]]
    | h :: t => if c == sep then [] :: h :: t else (c :: h) :: t

/-- Domain `([A-Za-z0-9][A-Za-z0-9-]*\.)+[A-Za-z]{2,}`: one or more labels
followed by the final letters-only component, separated by dots. -/
def domainOk (d : String) : Bool :=
  let parts := (splitOnChar '.' d.data).map String.mk
  parts.length ≥ 2 && parts.dropLast.all labelOk && tldOk (parts.getLastD "")

/-- Whether the character list contains two consecutive dots (the regex's
negative lookahead `(?!.*\.\.)`). -/
def hasDoubleDot : List Char → Bool
  | '.' :: '.' :: _ => true
  | _ :: rest => hasDoubleDot rest
  | [] => false

/-- `z.string().email(...)`: zod's email regex
`/^(?!\.)(?!.*\.\.)([A-Za-z0-9_'+\-.]*)[A-Za-z0-9_+-]@([A-Za-z0-9][A-Za-z0-9-]*\.)+[A-Za-z]{2,}$/`.
Since `@` appears in no character class, a match has exactly one `@`. -/
def zodEmailValid (s : String) : Bool :=
  match splitOnChar '@' s.data with
  | [localPart, domain] =>
    !strStartsWith s "." && !hasDoubleDot s.data &&
      localPartOk (String.mk localPart) && domainOk (String.mk domain)
  | _ => false

/-- The input shape of the contact form (`MessageInput`). -/
structure MessageInput where
  name : String
  email : String
  message : String
deriving DecidableEq, Repr

/-- The issue messages `messageSchema.parse(input)` would raise, in field
order (`name`, `email`, `message`): `min(1)` on `name` and `message`,
`email()` on `email`, each with its custom message. -/
def messageSchemaIssues (input : MessageInput) : List String :=
  (if input.name.length ≥ 1 then [] else ["Name is required"]) ++
  (if zodEmailValid input.email then [] else ["Invalid email"]) ++
  (if input.message.length ≥ 1 then [] else ["Message is required"])

/-- `messageSchema.parse`: the validated input, or a `ZodError` carrying the
issue list. -/
def messageSchemaParse (input : MessageInput) : Except (List String) MessageInput :=
  match messageSchemaIssues input with
  | [] => Except.ok input
  | issues => Except.error issues

/-- One observable side effect of `sendMessage`: an attempted
`resend.emails.send` call, an attempted `db.message.create` call, or a
`console.error` log line. -/
inductive EffectStep where
  | emailSend
  | dbCreate
  | consoleError
deriving DecidableEq, Repr

/-- The discriminated result `{ success: boolean, error?: string }`. -/
structure SendMessageResult where
  success : Bool
  error : Option String
deriving DecidableEq, Repr

/-- The `sendMessage` server action.  The outcomes of the two external
calls are inputs: `emailOk` is whether `resend.emails.send` resolves
(rather than throws), `dbOk` whether `db.message.create` does.  The
returned trace lists the attempted effects in program order; a thrown
error jumps to the `catch` block, which logs and returns the error result
(the first issue message for a `ZodError`, `"Failed to send message"`
otherwise). -/
def sendMessage (input : MessageInput) (emailOk dbOk : Bool) :
    SendMessageResult × List EffectStep :=
  match messageSchemaParse input with
  | Except.error issues =>
    (⟨false, some (issues.getD 0 "")⟩, [EffectStep.consoleError])
  | Except.ok _ =>
    if emailOk then
      if dbOk then
        (⟨true, none⟩, [EffectStep.emailSend, EffectStep.dbCreate])
      else
        (⟨false, some "Failed to send message"⟩,
          [EffectStep.emailSend, EffectStep.dbCreate, EffectStep.consoleError])
    else
      (⟨false, some "Failed to send message"⟩,
        [EffectStep.emailSend, EffectStep.consoleError])

/-! ## Session-gated pages (`src/app/admin/page.tsx`, `src/app/user/page.tsx`)

Both pages read the session via `auth.api.getSession`; a missing session
redirects to `/signin`; `/admin` additionally redirects to `/` when
`session.user.role !== 'ADMIN'`; otherwise each renders a greeting
`Welcome, {session.user.name || session.user.email}!`. -/

/-- The session user fields the pages read.  `name` is a string field; the
pages treat the empty string as absent via JavaScript's `||`. -/
structure SessionUser where
  name : String
  email : String
  role : String
deriving DecidableEq, Repr

/-- A session as returned by `auth.api.getSession` (when not null). -/
structure Session where
  user : SessionUser
deriving DecidableEq, Repr

/-- JavaScript's `a || b` on strings: `b` when `a` is falsy (the empty
string), `a` otherwise. -/
def jsOrString (a b : String) : String :=
  if a == "" then b else a

/-- The outcome of rendering a server page: a `redirect(path)` call, or a
rendered page whose greeting identity is the given string. -/
inductive PageResult where
  | redirect (path : String)
  | render (identity : String)
deriving DecidableEq, Repr

/-- `AdminPage`: no session redirects to `/signin`; a non-`ADMIN` role
redirects to `/`; otherwise renders `Welcome, {name || email}!`. -/
def adminPage (session : Option Session) : PageResult :=
  match session with
  | none => PageResult.redirect "/signin"
  | some s =>
    if s.user.role != "ADMIN" then PageResult.redirect "/"
    else PageResult.render (jsOrString s.user.name s.user.email)

/-- `UserPage`: no session redirects to `/signin`; otherwise renders
`Welcome, {name || email}!`. -/
def userPage (session : Option Session) : PageResult :=
  match session with
  | none => PageResult.redirect "/signin"
  | some s => PageResult.render (jsOrString s.user.name s.user.email)

/-! ## Helper lemmas shared by the claim theorems -/

/-- The protected predicate unfolded over the two-element route list. -/
theorem isProtectedRoute_spec (p : String) :
    isProtectedRoute p = true ↔
      (p = "/messages" ∨ p = "/user" ∨
        strStartsWith p "/messages/" = true ∨ strStartsWith p "/user/" = true) := by
  simp only [isProtectedRoute, protectedRoutes, List.any_cons, List.any_nil,
    Bool.or_eq_true, beq_iff_eq, Bool.or_false]
  tauto

/-- With no session cookie and a protected path, the proxy redirects. -/
theorem proxy_redirect_of_protected_of_no_cookie (req : NextRequest)
    (hp : isProtectedRoute req.pathname = true)
    (hc : ∀ c ∈ req.cookies, c.name ≠ "better-auth.session_token") :
    proxy req =
      ProxyResponse.redirect ⟨req.url, "/signin", [("callbackUrl", req.pathname)]⟩ := by
  have hfind : cookiesGet req.cookies "better-auth.session_token" = none := by
    simp only [cookiesGet, List.find?_eq_none, beq_iff_eq]
    intro c hmem
    exact hc c hmem
  simp [proxy, hp, hfind]

/-- With the session cookie present, the proxy always passes through. -/
theorem proxy_next_of_cookie (req : NextRequest)
    (hc : ∃ c ∈ req.cookies, c.name = "better-auth.session_token") :
    proxy req = ProxyResponse.next := by
  obtain ⟨c, hmem, hname⟩ := hc
  rcases hfind : cookiesGet req.cookies "better-auth.session_token" with _ | c'
  · exfalso
    have := List.find?_eq_none.mp hfind c hmem
    simp [hname] at this
  · by_cases hp : isProtectedRoute req.pathname = true
    · simp [proxy, hp, hfind]
    · simp [proxy, Bool.eq_false_iff.mpr hp]

/-- With an unprotected path, the proxy always passes through. -/
theorem proxy_next_of_unprotected (req : NextRequest)
    (hp : isProtectedRoute req.pathname = false) :
    proxy req = ProxyResponse.next := by
  simp [proxy, hp]

/-! ## Claim theorems: route proxy -/

/-- Claim C1: every request whose pathname is in the protected set (equal
to `/messages` or `/user`, or starting with `/messages/` or `/user/`) and
whose cookies contain no cookie named `better-auth.session_token` is
redirected to `/signin` with `callbackUrl` equal to the original pathname. -/
theorem proxy_protected_no_cookie_redirects_to_signin (req : NextRequest)
    (hprot : req.pathname = "/messages" ∨ req.pathname = "/user" ∨
      strStartsWith req.pathname "/messages/" = true ∨
      strStartsWith req.pathname "/user/" = true)
    (hcookie : ∀ c ∈ req.cookies, c.name ≠ "better-auth.session_token") :
    proxy req =
      ProxyResponse.redirect ⟨req.url, "/signin", [("callbackUrl", req.pathname)]⟩ :=
  proxy_redirect_of_protected_of_no_cookie req
    ((isProtectedRoute_spec req.pathname).mpr hprot) hcookie

/-- Witness for C1: a cookieless request to `/messages` is redirected to
`/signin?callbackUrl=/messages`. -/
theorem proxy_protected_no_cookie_redirects_to_signin_witness :
    proxy ⟨"/messages", [], "http://localhost:3000/messages"⟩ =
      ProxyResponse.redirect
        ⟨"http://localhost:3000/messages", "/signin", [("callbackUrl", "/messages")]⟩ :=
  proxy_protected_no_cookie_redirects_to_signin
    ⟨"/messages", [], "http://localhost:3000/messages"⟩ (Or.inl rfl) (by simp)

/-- Counterexample to claim C5: a request to `/messages` without the
session cookie is not passed through by the proxy (it is redirected), so
the proxy does not treat `/messages` as public. -/
theorem proxy_messages_passthrough_counterexample :
    proxy ⟨"/messages", [], "http://localhost:3000/messages"⟩ ≠ ProxyResponse.next := by
  decide

/-- Claim C5 as amended: `/messages` is in the proxy's protected set — a
request to `/messages` without the session cookie is redirected to
`/signin` with `callbackUrl` `/messages`, and one with the session cookie
present is passed through. -/
theorem proxy_messages_is_protected (req : NextRequest)
    (hp : req.pathname = "/messages") :
    ((∀ c ∈ req.cookies, c.name ≠ "better-auth.session_token") →
      proxy req =
        ProxyResponse.redirect ⟨req.url, "/signin", [("callbackUrl", "/messages")]⟩) ∧
    ((∃ c ∈ req.cookies, c.name = "better-auth.session_token") →
      proxy req = ProxyResponse.next) := by
  constructor
  · intro hc
    have := proxy_redirect_of_protected_of_no_cookie req
      ((isProtectedRoute_spec req.pathname).mpr (Or.inl hp)) hc
    rwa [hp] at this
  · exact proxy_next_of_cookie req

/-- Witness for amended C5: with the session cookie, a request to
`/messages` passes through. -/
theorem proxy_messages_is_protected_witness :
    proxy ⟨"/messages", [⟨"better-auth.session_token", "tok"⟩],
        "http://localhost:3000/messages"⟩ = ProxyResponse.next :=
  (proxy_messages_is_protected
    ⟨"/messages", [⟨"better-auth.session_token", "tok"⟩],
      "http://localhost:3000/messages"⟩ rfl).2 ⟨⟨"better-auth.session_token", "tok"⟩, by simp⟩

/-- Claim C6: every request whose pathname is outside the protected set is
passed through, with or without the session cookie. -/
theorem proxy_unprotected_passthrough (req : NextRequest)
    (h : ¬ (req.pathname = "/messages" ∨ req.pathname = "/user" ∨
      strStartsWith req.pathname "/messages/" = true ∨
      strStartsWith req.pathname "/user/" = true)) :
    proxy req = ProxyResponse.next := by
  refine proxy_next_of_unprotected req ?_
  rcases hb : isProtectedRoute req.pathname with _ | _
  · rfl
  · exact absurd ((isProtectedRoute_spec req.pathname).mp hb) h

/-- Witness for C6: a request to `/` passes through. -/
theorem proxy_unprotected_passthrough_witness :
    proxy ⟨"/", [], "http://localhost:3000/"⟩ = ProxyResponse.next :=
  proxy_unprotected_passthrough ⟨"/", [], "http://localhost:3000/"⟩ (by decide)

/-- Claim C7: the protected predicate holds exactly on `/messages`,
`/user`, and pathnames starting with `/messages/` or `/user/`; in
particular `/messagesX` and `/userX` are unprotected. -/
theorem protectedRoutes_exactly_messages_user :
    (∀ p : String, isProtectedRoute p = true ↔
      (p = "/messages" ∨ p = "/user" ∨
        strStartsWith p "/messages/" = true ∨ strStartsWith p "/user/" = true)) ∧
    isProtectedRoute "/messagesX" = false ∧ isProtectedRoute "/userX" = false :=
  ⟨isProtectedRoute_spec, by decide, by decide⟩

/-- Witness for C7: `/user/settings` is a protected path. -/
theorem protectedRoutes_exactly_messages_user_witness :
    isProtectedRoute "/user/settings" = true :=
  (protectedRoutes_exactly_messages_user.1 "/user/settings").mpr
    (Or.inr (Or.inr (Or.inr (by decide))))

/-! ## Claim theorems: `sendMessage` -/

/-- On a validation failure, `sendMessage` only logs and returns the first
issue message, attempting neither external call. -/
theorem sendMessage_of_issues (input : MessageInput) (emailOk dbOk : Bool)
    (h : messageSchemaIssues input ≠ []) :
    sendMessage input emailOk dbOk =
      (⟨false, some ((messageSchemaIssues input).getD 0 "")⟩,
        [EffectStep.consoleError]) := by
  unfold sendMessage messageSchemaParse
  rcases hi : messageSchemaIssues input with _ | ⟨a, t⟩
  · exact absurd hi h
  · simp [hi]

/-- Every element of the issue list is one of the three schema messages. -/
theorem messageSchemaIssues_mem (input : MessageInput) (m : String)
    (hm : m ∈ messageSchemaIssues input) :
    m = "Name is required" ∨ m = "Invalid email" ∨ m = "Message is required" := by
  unfold messageSchemaIssues at hm
  split_ifs at hm <;>
    simp only [List.mem_append, List.mem_singleton, List.not_mem_nil, or_false,
      false_or] at hm <;>
    tauto

/-- An invalid field makes the issue list nonempty. -/
theorem messageSchemaIssues_ne_nil_of_invalid (input : MessageInput)
    (h : input.name = "" ∨ input.message = "" ∨ zodEmailValid input.email = false) :
    messageSchemaIssues input ≠ [] := by
  unfold messageSchemaIssues
  by_cases h1 : input.name.length ≥ 1
  · by_cases h2 : zodEmailValid input.email = true
    · by_cases h3 : input.message.length ≥ 1
      · exfalso
        rcases h with h | h | h
        · rw [h] at h1
          exact absurd h1 (by decide)
        · rw [h] at h3
          exact absurd h3 (by decide)
        · rw [h] at h2
          simp at h2
      · simp [h1, h2, h3]
    · simp [h1, h2]
  · simp [h1]

/-- The head of a nonempty issue list is a nonempty string. -/
theorem messageSchemaIssues_head_ne_empty (input : MessageInput)
    (h : messageSchemaIssues input ≠ []) :
    (messageSchemaIssues input).getD 0 "" ≠ "" := by
  rcases hi : messageSchemaIssues input with _ | ⟨a, t⟩
  · exact absurd hi h
  · have ha : a ∈ messageSchemaIssues input := by
      rw [hi]
      exact List.mem_cons_self a t
    rcases messageSchemaIssues_mem input a ha with h' | h' | h' <;>
      simp [h']

/-- Claim C2: for input with an empty required field or an email the zod
check rejects, `sendMessage` fails with a nonempty error and attempts
neither the email send nor the record creation. -/
theorem sendMessage_invalid_rejected (input : MessageInput) (emailOk dbOk : Bool)
    (h : input.name = "" ∨ input.message = "" ∨ zodEmailValid input.email = false) :
    (sendMessage input emailOk dbOk).1.success = false ∧
    (∃ e, (sendMessage input emailOk dbOk).1.error = some e ∧ e ≠ "") ∧
    List.count EffectStep.emailSend (sendMessage input emailOk dbOk).2 = 0 ∧
    List.count EffectStep.dbCreate (sendMessage input emailOk dbOk).2 = 0 := by
  have hne := messageSchemaIssues_ne_nil_of_invalid input h
  rw [sendMessage_of_issues input emailOk dbOk hne]
  exact ⟨rfl, ⟨_, rfl, messageSchemaIssues_head_ne_empty input hne⟩, rfl, rfl⟩

/-- Witness for C2: an empty name is rejected without side effects. -/
theorem sendMessage_invalid_rejected_witness :
    (sendMessage ⟨"", "ann@example.com", "Hello"⟩ true true).1.success = false ∧
    List.count EffectStep.emailSend
      (sendMessage ⟨"", "ann@example.com", "Hello"⟩ true true).2 = 0 :=
  ⟨(sendMessage_invalid_rejected ⟨"", "ann@example.com", "Hello"⟩ true true
      (Or.inl rfl)).1,
    (sendMessage_invalid_rejected ⟨"", "ann@example.com", "Hello"⟩ true true
      (Or.inl rfl)).2.2.1⟩

/-- Counterexample to claim C3: on valid input whose email send throws,
`sendMessage` attempts no record persistence at all (not exactly one). -/
theorem sendMessage_one_persistence_counterexample :
    messageSchemaIssues ⟨"Ann", "ann@example.com", "Hello"⟩ = [] ∧
    ¬ List.count EffectStep.dbCreate
        (sendMessage ⟨"Ann", "ann@example.com", "Hello"⟩ false true).2 = 1 := by
  decide

/-- Claim C3 as amended: for valid input, `sendMessage` attempts exactly
one email send; it attempts exactly one record persistence when the email
send succeeds and none when it throws; it returns success exactly when
both calls succeed; and any failure carries an error string. -/
theorem sendMessage_valid_effects (input : MessageInput) (emailOk dbOk : Bool)
    (h : messageSchemaIssues input = []) :
    List.count EffectStep.emailSend (sendMessage input emailOk dbOk).2 = 1 ∧
    List.count EffectStep.dbCreate (sendMessage input emailOk dbOk).2 =
      (if emailOk then 1 else 0) ∧
    ((sendMessage input emailOk dbOk).1.success = true ↔
      emailOk = true ∧ dbOk = true) ∧
    ((sendMessage input emailOk dbOk).1.success = false →
      ∃ e, (sendMessage input emailOk dbOk).1.error = some e) := by
  have heq : messageSchemaParse input = Except.ok input := by
    unfold messageSchemaParse
    rw [h]
  cases emailOk <;> cases dbOk <;> simp [sendMessage, heq]

/-- Witness for amended C3: a fully successful valid submission sends one
email, creates one record, and succeeds. -/
theorem sendMessage_valid_effects_witness :
    List.count EffectStep.emailSend
      (sendMessage ⟨"Ann", "ann@example.com", "Hello"⟩ true true).2 = 1 ∧
    (sendMessage ⟨"Ann", "ann@example.com", "Hello"⟩ true true).1.success = true :=
  ⟨(sendMessage_valid_effects ⟨"Ann", "ann@example.com", "Hello"⟩ true true
      (by decide)).1,
    ((sendMessage_valid_effects ⟨"Ann", "ann@example.com", "Hello"⟩ true true
      (by decide)).2.2.1).mpr ⟨rfl, rfl⟩⟩

/-- Claim C8: the returned error is the first validation issue on schema
failure and the fixed string `"Failed to send message"` on a downstream
throw; every issue message is one of the three schema messages; and a
`console.error` log happens exactly in the error cases. -/
theorem sendMessage_error_strings (input : MessageInput) (emailOk dbOk : Bool) :
    (sendMessage input emailOk dbOk).1.error =
      (if (messageSchemaIssues input).isEmpty then
        (if emailOk && dbOk then none else some "Failed to send message")
      else some ((messageSchemaIssues input).getD 0 "")) ∧
    ((messageSchemaIssues input).all
      (fun m => m == "Name is required" || m == "Invalid email" ||
        m == "Message is required")) = true ∧
    List.count EffectStep.consoleError (sendMessage input emailOk dbOk).2 =
      (if (messageSchemaIssues input).isEmpty && emailOk && dbOk then 0 else 1) := by
  refine ⟨?_, ?_, ?_⟩
  · by_cases hi : messageSchemaIssues input = []
    · have heq : messageSchemaParse input = Except.ok input := by
        unfold messageSchemaParse
        rw [hi]
      cases emailOk <;> cases dbOk <;> simp [sendMessage, heq, hi]
    · rw [sendMessage_of_issues input emailOk dbOk hi]
      simp [List.isEmpty_iff, hi]
  · rw [List.all_eq_true]
    intro m hm
    rcases messageSchemaIssues_mem input m hm with h | h | h <;> simp [h]
  · by_cases hi : messageSchemaIssues input = []
    · have heq : messageSchemaParse input = Except.ok input := by
        unfold messageSchemaParse
        rw [hi]
      cases emailOk <;> cases dbOk <;> simp [sendMessage, heq, hi]
    · rw [sendMessage_of_issues input emailOk dbOk hi]
      simp [List.isEmpty_iff, hi]

/-- Witness for C8: a malformed email surfaces `"Invalid email"`. -/
theorem sendMessage_error_strings_witness :
    (sendMessage ⟨"Ann", "not-an-email", "Hello"⟩ true true).1.error =
      (if (messageSchemaIssues ⟨"Ann", "not-an-email", "Hello"⟩).isEmpty then
        (if true && true then none else some "Failed to send message")
      else some ((messageSchemaIssues ⟨"Ann", "not-an-email", "Hello"⟩).getD 0 "")) :=
  (sendMessage_error_strings ⟨"Ann", "not-an-email", "Hello"⟩ true true).1

/-- Claim C10: `sendMessage` is not atomic — the email send precedes the
record creation, so on valid input where the email succeeds and the
database throws, it returns the failure result although the email send was
already attempted and is not undone. -/
theorem sendMessage_not_atomic (input : MessageInput)
    (h : messageSchemaIssues input = []) :
    (sendMessage input true false).1 = ⟨false, some "Failed to send message"⟩ ∧
    (sendMessage input true false).2 =
      [EffectStep.emailSend, EffectStep.dbCreate, EffectStep.consoleError] ∧
    (∀ dbOk, ∃ rest, (sendMessage input true dbOk).2 = EffectStep.emailSend :: rest) := by
  have heq : messageSchemaParse input = Except.ok input := by
    unfold messageSchemaParse
    rw [h]
  refine ⟨by simp [sendMessage, heq], by simp [sendMessage, heq], ?_⟩
  intro dbOk
  cases dbOk <;> simp [sendMessage, heq]

/-- Witness for C10: the concrete failing trace on a valid input. -/
theorem sendMessage_not_atomic_witness :
    (sendMessage ⟨"Ann", "ann@example.com", "Hello"⟩ true false).2 =
      [EffectStep.emailSend, EffectStep.dbCreate, EffectStep.consoleError] :=
  (sendMessage_not_atomic ⟨"Ann", "ann@example.com", "Hello"⟩ (by decide)).2.1

/-! ## Claim theorems: session-gated pages -/

/-- Claim C4: `/admin` redirects a missing session to `/signin` (never to
`/`), redirects a non-`ADMIN` session to `/`, and renders the admin
content exactly when a session exists with role `ADMIN`. -/
theorem adminPage_gating (s : Session) :
    adminPage none = PageResult.redirect "/signin" ∧
    (s.user.role ≠ "ADMIN" → adminPage (some s) = PageResult.redirect "/") ∧
    (s.user.role = "ADMIN" →
      adminPage (some s) = PageResult.render (jsOrString s.user.name s.user.email)) ∧
    (∀ g, adminPage (some s) = PageResult.render g → s.user.role = "ADMIN") := by
  refine ⟨rfl, ?_, ?_, ?_⟩
  · intro hr
    simp [adminPage, bne_iff_ne, hr]
  · intro hr
    simp [adminPage, hr]
  · intro g hg
    by_cases hr : s.user.role = "ADMIN"
    · exact hr
    · simp [adminPage, bne_iff_ne, hr] at hg

/-- Witness for C4: a `USER`-role session is sent to `/`, an `ADMIN` one
is rendered. -/
theorem adminPage_gating_witness :
    adminPage (some ⟨⟨"Alice", "alice@example.com", "USER"⟩⟩) =
      PageResult.redirect "/" ∧
    adminPage (some ⟨⟨"Alice", "alice@example.com", "ADMIN"⟩⟩) =
      PageResult.render (jsOrString "Alice" "alice@example.com") :=
  ⟨(adminPage_gating ⟨⟨"Alice", "alice@example.com", "USER"⟩⟩).2.1 (by decide),
    (adminPage_gating ⟨⟨"Alice", "alice@example.com", "ADMIN"⟩⟩).2.2.1 rfl⟩

/-- Claim C9: a session reaching the rendering branch of `/user` or
`/admin` is greeted with its display name when that is nonempty and with
its email otherwise; for a user whose email is nonempty (as the auth
library's user model requires) the identity is never empty. -/
theorem rendered_identity_nonempty (s : Session) (h : s.user.email ≠ "") :
    userPage (some s) = PageResult.render (jsOrString s.user.name s.user.email) ∧
    (s.user.role = "ADMIN" →
      adminPage (some s) = PageResult.render (jsOrString s.user.name s.user.email)) ∧
    jsOrString s.user.name s.user.email ≠ "" ∧
    (jsOrString s.user.name s.user.email = s.user.name ∨
      jsOrString s.user.name s.user.email = s.user.email) := by
  refine ⟨rfl, ?_, ?_, ?_⟩
  · intro hr
    simp [adminPage, hr]
  · by_cases hn : s.user.name = ""
    · simpa [jsOrString, hn] using h
    · simp [jsOrString, hn]
  · by_cases hn : s.user.name = ""
    · simp [jsOrString, hn]
    · simp [jsOrString, hn]

/-- Witness for C9: a user with an empty display name is greeted by email,
which is nonempty. -/
theorem rendered_identity_nonempty_witness :
    userPage (some ⟨⟨"", "bob@example.com", "USER"⟩⟩) =
      PageResult.render (jsOrString "" "bob@example.com") ∧
    jsOrString "" "bob@example.com" ≠ "" :=
  ⟨(rendered_identity_nonempty ⟨⟨"", "bob@example.com", "USER"⟩⟩ (by decide)).1,
    (rendered_identity_nonempty ⟨⟨"", "bob@example.com", "USER"⟩⟩ (by decide)).2.2.1⟩

end NextAuthStarter
